import Mathlib

/-!
Verification of the Educational File Sharing Protocol for Low-Bandwidth
Networks (src/protocol.py, src/server.py, src/client.py).

Bytes are modelled as `List Nat` (each entry one byte value). CPython
`struct.pack`/`struct.unpack` with a format string that has no byte-order
marker uses native byte order, size and alignment; on the usual x86-64 /
AArch64 targets that means little-endian, 4-byte alignment for `I` and
8-byte alignment for `q`, with zero padding bytes. The layouts below spell
that padding out explicitly.

zlib is an external library, not part of the repository; `zlib.compress`
is modelled as an abstract parameter `zc : List Nat → List Nat` and
`zlib.decompress` as `z : List Nat → Option (List Nat)` (`none` standing
for a raised `zlib.error`). UTF-8 decoding of wire bytes is likewise a
parameter `u8dec` (`none` standing for `UnicodeDecodeError`).
-/

namespace EduFSP

/-- Little-endian bytes of a 4-byte unsigned value (struct format `I`),
for values in range. -/
def le4 (x : Nat) : List Nat :=
  [x % 256, x / 256 % 256, x / 65536 % 256, x / 16777216 % 256]

/-- Little-endian bytes of an 8-byte value (struct format `q`), for
non-negative in-range values as produced by the protocol. -/
def le8 (x : Nat) : List Nat :=
  le4 (x % 4294967296) ++ le4 (x / 4294967296)

/-- Read a little-endian 4-byte unsigned value at offset `off`. -/
def rd4 (bs : List Nat) (off : Nat) : Nat :=
  bs.getD off 0 + 256 * bs.getD (off + 1) 0 +
    65536 * bs.getD (off + 2) 0 + 16777216 * bs.getD (off + 3) 0

/-- Read a little-endian 8-byte value at offset `off` (non-negative range). -/
def rd8 (bs : List Nat) (off : Nat) : Nat :=
  rd4 bs off + 4294967296 * rd4 bs (off + 4)

/-- UTF-8 encoding of a single character (CPython `str.encode` per code
point). -/
def utf8Bytes (c : Char) : List Nat :=
  let n := c.toNat
  if n < 128 then [n]
  else if n < 2048 then [192 + n / 64, 128 + n % 64]
  else if n < 65536 then [224 + n / 4096, 128 + n / 64 % 64, 128 + n % 64]
  else [240 + n / 262144, 128 + n / 4096 % 64, 128 + n / 64 % 64, 128 + n % 64]

/-- UTF-8 encoding of a Python string (modelled as its character list). -/
def strBytes (s : List Char) : List Nat :=
  (s.map utf8Bytes).flatten

/-- Python exceptions that the protocol code can raise while handling a
message: `struct.error`, `ValueError` (carrying the offending type tag),
and `zlib.error`. -/
inductive PyErr where
  | structErr : PyErr
  | valueErr : Nat → PyErr
  | zlibErr : PyErr
deriving DecidableEq, Repr

/-- Representative `str(e)` text of each modelled exception. -/
def errText : PyErr → List Char
  | PyErr.structErr => "unpack requires a buffer of 16 bytes".data
  | PyErr.valueErr t => "Invalid message type: ".data ++ (Nat.repr t).data
  | PyErr.zlibErr => "Error while decompressing data".data

/-- ProtocolMessage.create_handshake: `pack('B', 0x01) + pack('I', len) +
version_bytes` (two separate packs, hence no padding between them). -/
def create_handshake (version : List Char) : List Nat :=
  let version_bytes := strBytes version
  [1] ++ le4 version_bytes.length ++ version_bytes

/-- ProtocolMessage.create_chunk: header `pack('BIIBq', 0x04, chunk_index,
len(payload), compressed_flag, len(data))`. Native alignment lays this out
as tag(1) · pad(3) · index(4) · payloadLen(4) · flag(1) · pad(3) ·
originalLen(8), a 24-byte header, followed by the payload. `zc` models
`zlib.compress(data, 6)`. -/
def create_chunk (zc : List Nat → List Nat) (chunk_index : Nat)
    (data : List Nat) (compress : Bool) : List Nat :=
  let payload := if compress then zc data else data
  let compressed_flag := if compress then 1 else 0
  [4] ++ [0, 0, 0] ++ le4 chunk_index ++ le4 payload.length ++
    [compressed_flag] ++ [0, 0, 0] ++ le8 data.length ++ payload

/-- ProtocolMessage.create_error: `pack('BBI', 0x06, error_code, len) +
error_bytes`; native alignment lays this out as tag(1) · code(1) · pad(2) ·
msgLen(4) · msgUTF8. The server builds its inline error replies with the
same format string. -/
def create_error (error_code : Nat) (error_msg : List Char) : List Nat :=
  let error_bytes := strBytes error_msg
  [6, error_code, 0, 0] ++ le4 error_bytes.length ++ error_bytes

/-- `struct.unpack('IBBq', bs)`: requires exactly 16 bytes (native
alignment: I at 0, B at 4, B at 5, pad at 6..7, q at 8..15), else
`struct.error`. -/
def structUnpackIBBq (bs : List Nat) : Option (Nat × Nat × Nat × Nat) :=
  if bs.length = 16 then some (rd4 bs 0, bs.getD 4 0, bs.getD 5 0, rd8 bs 8)
  else none

/-- ProtocolMessage.parse_chunk. Reads the tag from `message[0:1]`
(`struct.error` on an empty buffer), raises `ValueError` when the tag is
not CHUNK_DATA (0x04), then unpacks `'IBBq'` from `message[1:15]` — a
slice of at most 14 bytes against a 16-byte format. `z` models
`zlib.decompress`; a `none` result stands for a raised `zlib.error`. -/
def parse_chunk (z : List Nat → Option (List Nat)) (message : List Nat) :
    Except PyErr (Nat × List Nat × Bool) :=
  match message with
  | [] => Except.error PyErr.structErr
  | t :: _ =>
    if t = 4 then
      match structUnpackIBBq ((message.drop 1).take 14) with
      | none => Except.error PyErr.structErr
      | some (chunk_index, _payload_len, compressed, _original_len) =>
        let payload := message.drop 15
        if compressed ≠ 0 then
          match z payload with
          | some p => Except.ok (chunk_index, p, true)
          | none => Except.error PyErr.zlibErr
        else Except.ok (chunk_index, payload, false)
    else Except.error (PyErr.valueErr t)

/-- FileTransferProtocol.split_file: `for i in range(0, len(file_data),
chunk_size): chunks.append(file_data[i:i+chunk_size])`. For a positive
step, `range(0, n, s)` yields `(n + s - 1) / s` indices `k * s`. -/
def split_file (chunk_size : Nat) (file_data : List Nat) : List (List Nat) :=
  (List.range ((file_data.length + chunk_size - 1) / chunk_size)).map
    fun k => (file_data.drop (k * chunk_size)).take chunk_size

/-- FileTransferProtocol.reassemble_file: `b''.join(chunks)`. -/
def reassemble_file (chunks : List (List Nat)) : List Nat :=
  chunks.flatten

/-- FileTransferProtocol.decompress_chunk: when `compression` is set it
tries `zlib.decompress(chunk)` and on `zlib.error` returns the input
unchanged; otherwise it returns the input unchanged. -/
def decompress_chunk (compression : Bool)
    (z : List Nat → Option (List Nat)) (chunk : List Nat) : List Nat :=
  if compression then
    match z chunk with
    | some d => d
    | none => chunk
  else chunk

/-- ProtocolVersion.get_version(): MAJOR=1, MINOR=0, PATCH=0 formatted as
`"1.0.0"`. -/
def protocol_version : List Char :=
  "1.0.0".data

/-- os.path.basename (posixpath): everything after the last `/` of the
path, the whole path when it has no `/`. -/
def basename : List Char → List Char
  | [] => []
  | c :: rest =>
    if c = '/' then basename rest
    else if rest.contains '/' then basename rest
    else c :: rest

/-- Lookup in the storage root, modelled as an association list from the
plain file names inside `data_dir` to their contents; `some` corresponds
to `os.path.exists(filepath) and os.path.isfile(filepath)` followed by
reading the file. -/
def lookupFile (fs : List (List Char × List Nat)) (name : List Char) :
    Option (List Nat) :=
  match fs with
  | [] => none
  | (k, v) :: rest => if k = name then some v else lookupFile rest name

/-- str(AttributeError) raised by the call to the nonexistent
`ProtocolMessage.create_message` (quotes elided). -/
def attrErrorText : List Char :=
  "type object ProtocolMessage has no attribute create_message".data

/-- FileShareServer._handle_file_request, from the point where `filename`
has been extracted from the request bytes. The server resolves
`os.path.join(self.data_dir, os.path.basename(filename))` and, when the
file exists, splits it with its `FileTransferProtocol(chunk_size=MEDIUM
(4096), compression=True)` and sends one chunk message per chunk (the
sent messages are the first component); it then calls
`ProtocolMessage.create_message(COMPLETE, b'')`, a method that does not
exist, so the `AttributeError` is caught and the returned reply (second
component) is an Error with code 3. A missing file yields no sent chunks
and an Error reply with code 2. -/
def handle_file_request (zc : List Nat → List Nat)
    (fs : List (List Char × List Nat)) (filename : List Char) :
    List (List Nat) × List Nat :=
  match lookupFile fs (basename filename) with
  | some file_data =>
    let chunks := split_file 4096 file_data
    (chunks.enum.map (fun p => create_chunk zc p.1 p.2 true),
      create_error 3 attrErrorText)
  | none => ([], create_error 2 ("File not found: ".data ++ filename))

/-- FileShareServer._handle_file_request including the wire parsing:
`filename_len = struct.unpack('I', data[1:5])[0]` (`struct.error` when
fewer than 4 bytes remain) and `data[5:5+filename_len].decode('utf-8')`
(`u8dec`, `none` standing for `UnicodeDecodeError`); either exception is
caught and answered with an Error of code 3. -/
def handle_file_request_wire (zc : List Nat → List Nat)
    (u8dec : List Nat → Option (List Char))
    (fs : List (List Char × List Nat)) (data : List Nat) :
    List (List Nat) × List Nat :=
  let sl := (data.drop 1).take 4
  if sl.length = 4 then
    let filename_len := rd4 sl 0
    match u8dec ((data.drop 5).take filename_len) with
    | some filename => handle_file_request zc fs filename
    | none => ([], create_error 3 ("invalid continuation byte".data))
  else ([], create_error 3 ("unpack requires a buffer of 4 bytes".data))

/-- FileShareServer._handle_handshake: prints and unconditionally replies
`create_handshake(self.protocol.protocol_version)`; the request bytes are
never inspected. -/
def handle_handshake (_data : List Nat) : List Nat :=
  create_handshake protocol_version

/-- FileShareServer._handle_chunk_upload: parses the chunk and replies
`pack('BBI', CHUNK_ACK, chunk_index, 0)` (which itself raises
`struct.error` when the index exceeds one byte); any exception is caught
and answered with an Error of code 4. -/
def handle_chunk_upload (z : List Nat → Option (List Nat))
    (data : List Nat) : List Nat :=
  match parse_chunk z data with
  | Except.ok (chunk_index, _payload, _compressed) =>
    if chunk_index < 256 then [5, chunk_index, 0, 0] ++ le4 0
    else create_error 4 ("ubyte format requires 0 <= number <= 255".data)
  | Except.error e => create_error 4 (errText e)

/-- FileShareServer._process_client_request: dispatch on the first byte of
the received data (`None` on an empty read); unknown tags are answered
with an Error of code 1. The result pairs the messages sent during
handling with the returned reply. -/
def process_client_request (zc : List Nat → List Nat)
    (z : List Nat → Option (List Nat))
    (u8dec : List Nat → Option (List Char))
    (fs : List (List Char × List Nat)) (data : List Nat) :
    Option (List (List Nat) × List Nat) :=
  match data with
  | [] => none
  | t :: _ =>
    if t = 1 then some ([], handle_handshake data)
    else if t = 2 then some (handle_file_request_wire zc u8dec fs data)
    else if t = 4 then some ([], handle_chunk_upload z data)
    else some ([], create_error 1 ("Unknown message type".data))

/-- parse_chunk raises on every input buffer: the slice `message[1:15]`
holds at most 14 bytes, never the 16 the native `'IBBq'` format needs, so
even a correctly tagged message ends in `struct.error`. -/
theorem parse_chunk_error (z : List Nat → Option (List Nat))
    (m : List Nat) : ∃ e, parse_chunk z m = Except.error e := by
  match m with
  | [] => exact ⟨PyErr.structErr, rfl⟩
  | t :: rest =>
    by_cases ht : t = 4
    · refine ⟨PyErr.structErr, ?_⟩
      have hlen : ¬ ((((t :: rest).drop 1).take 14).length = 16) := by
        simp [List.length_take]
        omega
      simp only [parse_chunk, if_pos ht, structUnpackIBBq, if_neg hlen]
    · exact ⟨PyErr.valueErr t, by simp only [parse_chunk, if_neg ht]⟩

/-- Splitting the empty byte string yields no chunks. -/
theorem split_file_nil (s : Nat) : split_file s [] = [] := by
  have h : (s - 1) / s = 0 := by
    rcases Nat.eq_zero_or_pos s with h | h
    · simp [h]
    · exact Nat.div_eq_of_lt (by omega)
  simp [split_file, h]

/-- Chunk count of a nonempty input is one more than that of the input
with its first `s` bytes removed. -/
theorem split_count (s n : Nat) (hs : 0 < s) (hn : 0 < n) :
    (n + s - 1) / s = ((n - s) + s - 1) / s + 1 := by
  have h1 : n + s - 1 = (n - 1) + s := by omega
  rw [h1, Nat.add_div_right _ hs]
  rcases le_or_lt s n with h | h
  · have h2 : (n - s) + s - 1 = n - 1 := by omega
    rw [h2]
  · have h2 : n - s = 0 := by omega
    have h3 : (0 + s - 1) / s = 0 := Nat.div_eq_of_lt (by omega)
    have h4 : (n - 1) / s = 0 := Nat.div_eq_of_lt (by omega)
    rw [h2, h3, h4]

/-- Unfolding split_file on a nonempty input: first chunk, then the split
of the rest. -/
theorem split_file_cons (s : Nat) (hs : 0 < s) (d : List Nat)
    (hd : d ≠ []) :
    split_file s d = d.take s :: split_file s (d.drop s) := by
  have hn : 0 < d.length := List.length_pos.mpr hd
  unfold split_file
  rw [List.length_drop, split_count s d.length hs hn,
    List.range_succ_eq_map]
  simp only [List.map_cons, List.map_map]
  refine congrArg₂ List.cons (by simp) ?_
  apply List.map_congr_left
  intro k _
  simp only [Function.comp_apply]
  rw [List.drop_drop, Nat.succ_mul, Nat.add_comm (k * s) s]

/-- Reassembling the chunks of a split restores the input, for every
positive chunk size. -/
theorem reassemble_split_file (s : Nat) (hs : 0 < s) (d : List Nat) :
    reassemble_file (split_file s d) = d := by
  suffices H : ∀ n (d : List Nat), d.length ≤ n →
      reassemble_file (split_file s d) = d from H d.length d le_rfl
  intro n
  induction n with
  | zero =>
    intro d hd
    have : d = [] := List.eq_nil_of_length_eq_zero (by omega)
    subst this
    simp [split_file_nil, reassemble_file]
  | succ n ih =>
    intro d hd
    rcases eq_or_ne d [] with rfl | hne
    · simp [split_file_nil, reassemble_file]
    · rw [split_file_cons s hs d hne]
      have hdl : (d.drop s).length ≤ n := by
        rw [List.length_drop]
        have : 0 < d.length := List.length_pos.mpr hne
        omega
      calc reassemble_file (d.take s :: split_file s (d.drop s))
          = d.take s ++ reassemble_file (split_file s (d.drop s)) := by
            simp [reassemble_file]
        _ = d.take s ++ d.drop s := by rw [ih _ hdl]
        _ = d := List.take_append_drop s d

/-- Taking from a replicated list truncates the count. -/
theorem take_replicate_min (a : Nat) :
    ∀ n m, (List.replicate m a).take n = List.replicate (min n m) a := by
  intro n
  induction n with
  | zero => intro m; simp
  | succ n ih =>
    intro m
    cases m with
    | zero => simp
    | succ m =>
      simp [List.replicate_succ, ih, Nat.succ_min_succ]

/-- Dropping from a replicated list subtracts from the count. -/
theorem drop_replicate_sub (a : Nat) :
    ∀ n m, (List.replicate m a).drop n = List.replicate (m - n) a := by
  intro n
  induction n with
  | zero => simp
  | succ n ih =>
    intro m
    cases m with
    | zero => simp
    | succ m => simp [List.replicate_succ, ih, Nat.succ_sub_succ]

/-- The 10,000-byte scenario of the spec: chunk size 4096 yields chunks
of 4096, 4096 and 1808 bytes. -/
theorem split_file_10000 :
    split_file 4096 (List.replicate 10000 0) =
      [List.replicate 4096 0, List.replicate 4096 0,
        List.replicate 1808 0] := by
  unfold split_file
  have h : ((List.replicate 10000 (0 : Nat)).length + 4096 - 1) / 4096 = 3 := by
    rw [List.length_replicate]
  rw [h]
  have h3 : List.range 3 = [0, 1, 2] := by rfl
  rw [h3]
  simp only [List.map_cons, List.map_nil, drop_replicate_sub,
    take_replicate_min]
  norm_num

/-- basename never returns a name containing a directory separator. -/
theorem basename_no_slash : ∀ p : List Char, (basename p).contains '/' = false := by
  intro p
  induction p with
  | nil => rfl
  | cons c rest ih =>
    have he : basename (c :: rest) =
        if c = '/' then basename rest
        else if rest.contains '/' then basename rest else c :: rest := rfl
    rw [he]
    by_cases hc : c = '/'
    · rw [if_pos hc]; exact ih
    · rw [if_neg hc]
      cases hr : rest.contains '/' with
      | true => simpa using ih
      | false =>
        have hgoal :
            (if false = true then basename rest else c :: rest).contains '/' =
              (c :: rest).contains '/' := by
          rw [if_neg]
          exact Bool.false_ne_true
        have hb : (('/' : Char) == c) = false :=
          beq_eq_false_iff_ne.mpr (Ne.symm hc)
        rw [hgoal, List.contains_cons, hb, hr]
        rfl

/-- C1: parse_chunk(create_chunk(0, b'', False)) does not return
(0, b'', False): create_chunk emits a 24-byte message whose parse raises
struct.error, because the encode header format `'BIIBq'` and the decode
format `'IBBq'` over `message[1:15]` disagree in field widths and offsets.
The spec states the round trip as the intended invariant and itself flags
the mismatch as a latent bug. -/
theorem claim_C1_roundtrip_bug :
    parse_chunk (fun _ => none) (create_chunk (fun d => d) 0 [] false) =
      Except.error PyErr.structErr ∧
    (create_chunk (fun d => d) 0 [] false).length = 24 :=
  ⟨rfl, rfl⟩

/-- C2: reassembling the chunks of a split restores the input for every
positive chunk size, and a 10,000-byte input at chunk size 4096 splits
into chunks of lengths 4096, 4096, 1808 whose reassembly is the
original. -/
theorem claim_C2_split_reassemble :
    (∀ s d, 0 < s → reassemble_file (split_file s d) = d) ∧
    (split_file 4096 (List.replicate 10000 0)).map List.length =
      [4096, 4096, 1808] ∧
    reassemble_file (split_file 4096 (List.replicate 10000 0)) =
      List.replicate 10000 0 := by
  refine ⟨fun s d hs => reassemble_split_file s hs d, ?_,
    reassemble_split_file 4096 (by norm_num) _⟩
  rw [split_file_10000]
  simp only [List.map_cons, List.map_nil, List.length_replicate]

/-- Witness for C2 at chunk size 2 on a 3-byte input. -/
theorem claim_C2_witness :
    reassemble_file (split_file 2 [5, 6, 7]) = [5, 6, 7] :=
  claim_C2_split_reassemble.1 2 [5, 6, 7] (by decide)

/-- C3 counterexample: on a concrete incoming ChunkData message the
server's upload handler replies an Error with code 4 (tag 6) — it does
not accumulate the chunk, reply a ChunkAck, reassemble, verify a
checksum, or persist anything (the handler is a stateless function of
the request bytes). -/
theorem claim_C3_counterexample :
    handle_chunk_upload (fun _ => none)
        (create_chunk (fun d => d) 0 [7, 8] false) =
      create_error 4 (errText PyErr.structErr) ∧
    (handle_chunk_upload (fun _ => none)
        (create_chunk (fun d => d) 0 [7, 8] false)).headD 0 = 6 :=
  ⟨rfl, rfl⟩

/-- C3 amended: on every incoming ChunkData message the upload handler
only attempts to parse the chunk and reply; since parse_chunk fails on
every buffer, the reply is always an Error with code 4, and no
accumulation, reassembly, checksum verification or persistence ever
happens. -/
theorem claim_C3_amended (z : List Nat → Option (List Nat))
    (data : List Nat) :
    ∃ e, handle_chunk_upload z data = create_error 4 (errText e) := by
  obtain ⟨e, he⟩ := parse_chunk_error z data
  exact ⟨e, by simp [handle_chunk_upload, he]⟩

/-- C4: for a FileRequest naming an existing file the server sends the
chunk messages in index order but then calls the nonexistent
`ProtocolMessage.create_message`; the AttributeError is caught and the
reply is an Error with code 3 (tag 6) instead of a Complete message
(tag 7). -/
theorem claim_C4_complete_bug (zc : List Nat → List Nat) :
    handle_file_request zc [(['a'], [1, 2, 3])] ['a'] =
      ([create_chunk zc 0 [1, 2, 3] true], create_error 3 attrErrorText) ∧
    (create_error 3 attrErrorText).headD 0 = 6 :=
  ⟨rfl, rfl⟩

/-- C5 counterexample: a Handshake advertising version 2.0.0 (major
version 2, incompatible with the server's 1.0.0) is answered with the
server's own Handshake (tag 1), not with an Error (tag 6), and no failure
occurs. -/
theorem claim_C5_counterexample :
    process_client_request (fun d => d) (fun _ => none) (fun _ => none) []
        (create_handshake "2.0.0".data) =
      some ([], create_handshake protocol_version) ∧
    (create_handshake protocol_version).headD 0 = 1 :=
  ⟨rfl, rfl⟩

/-- C5 amended: on receiving any message whose leading tag is Handshake,
the session performs no version validation and unconditionally replies
with its own Handshake (version 1.0.0); incompatible versions are never
answered with an Error. -/
theorem claim_C5_amended (zc : List Nat → List Nat)
    (z : List Nat → Option (List Nat))
    (u8dec : List Nat → Option (List Char))
    (fs : List (List Char × List Nat)) (rest : List Nat) :
    process_client_request zc z u8dec fs (1 :: rest) =
      some ([], create_handshake protocol_version) := rfl

/-- C6 counterexample: a 25-byte chunk message with the known tag 4, whose
declared payload length (the `'I'` field at offset 8 of the encode
layout) equals the 1 byte following the 24-byte header, still fails to
parse — so decode does not fail exactly on short buffers, unknown tags or
length mismatches. -/
theorem claim_C6_counterexample :
    (create_chunk (fun d => d) 3 [9] false).length = 25 ∧
    (create_chunk (fun d => d) 3 [9] false).headD 0 = 4 ∧
    rd4 (create_chunk (fun d => d) 3 [9] false) 8 = 1 ∧
    ((create_chunk (fun d => d) 3 [9] false).drop 24).length = 1 ∧
    parse_chunk (fun _ => none) (create_chunk (fun d => d) 3 [9] false) =
      Except.error PyErr.structErr :=
  ⟨rfl, rfl, rfl, rfl, rfl⟩

/-- C6 amended: parse_chunk raises on every input buffer — ValueError
when the leading tag is not CHUNK_DATA, struct.error otherwise (the
16-byte `'IBBq'` format is unpacked from a 14-byte slice) — and performs
no payload-length validation at all. -/
theorem claim_C6_amended (z : List Nat → Option (List Nat))
    (m : List Nat) : ∃ e, parse_chunk z m = Except.error e :=
  parse_chunk_error z m

/-- C7: a FileRequest naming a file absent from the storage root is
answered with an Error of code 2 (FileNotFound) and no ChunkData message
is sent. -/
theorem claim_C7_file_not_found (zc : List Nat → List Nat)
    (fs : List (List Char × List Nat)) (filename : List Char)
    (h : lookupFile fs (basename filename) = none) :
    handle_file_request zc fs filename =
      ([], create_error 2 ("File not found: ".data ++ filename)) := by
  simp [handle_file_request, h]

/-- Witness for C7 on an empty storage root. -/
theorem claim_C7_witness :
    handle_file_request (fun d => d) [] ['x'] =
      ([], create_error 2 ("File not found: ".data ++ ['x'])) :=
  claim_C7_file_not_found (fun d => d) [] ['x'] rfl

/-- C9: the requested filename is resolved through basename, whose result
never contains a directory separator, and the handler reads file data
only when that resolved name is present in the storage root. -/
theorem claim_C9_traversal :
    (∀ filename : List Char, (basename filename).contains '/' = false) ∧
    (∀ (zc : List Nat → List Nat) (fs : List (List Char × List Nat))
        (filename : List Char),
      (handle_file_request zc fs filename).1 ≠ [] →
        (lookupFile fs (basename filename)).isSome = true) := by
  constructor
  · exact basename_no_slash
  · intro zc fs filename h
    cases hl : lookupFile fs (basename filename) with
    | none => exact absurd (by simp [handle_file_request, hl]) h
    | some v => rfl

/-- Witness for C9 on a one-file storage root. -/
theorem claim_C9_witness :
    (lookupFile [(['a'], [1])] (basename ['a'])).isSome = true :=
  claim_C9_traversal.2 (fun d => d) [(['a'], [1])] ['a'] (by decide)

/-- C8 counterexample: a corrupted 3-byte compressed payload on which
zlib decompression fails is returned unchanged (length 3, not the
advertised original length 5) with no error signalled — the decompress
operation is never given originalLength and cannot raise. -/
theorem claim_C8_counterexample :
    decompress_chunk true (fun _ => none) [1, 2, 3] = [1, 2, 3] ∧
    (decompress_chunk true (fun _ => none) [1, 2, 3]).length = 3 :=
  ⟨rfl, rfl⟩

/-- C8 amended: decompress_chunk takes only the chunk bytes, not the
originalLength carried in the message; whenever zlib decompression
fails it silently returns the input bytes unchanged instead of raising
an IntegrityError. -/
theorem claim_C8_amended (z : List Nat → Option (List Nat))
    (chunk : List Nat) (h : z chunk = none) :
    decompress_chunk true z chunk = chunk := by
  simp [decompress_chunk, h]

/-- Witness for C8 amended with a failing decompressor. -/
theorem claim_C8_witness :
    decompress_chunk true (fun _ => none) [9] = [9] :=
  claim_C8_amended (fun _ => none) [9] rfl

/-- C10: decompress_chunk is total — with compression disabled it returns
the input unchanged, and with compression enabled it returns the
decompressed bytes on success and the input unchanged when zlib fails,
never signalling an error. -/
theorem claim_C10_decompress_total (z : List Nat → Option (List Nat))
    (chunk : List Nat) :
    decompress_chunk false z chunk = chunk ∧
    decompress_chunk true z chunk = (z chunk).getD chunk := by
  refine ⟨rfl, ?_⟩
  cases h : z chunk with
  | none => simp [decompress_chunk, h]
  | some d => simp [decompress_chunk, h]

end EduFSP
